import Mathlib

/-!
Shallow embedding of `mipi.py`: the MIPI DSI/DCS command tables, the
payload resolver (`DCSCommand.find`), the parameter codecs and the
per-transaction render functions.  Byte payloads are `List Nat`
(each element a byte value), fallible Python code is modelled with
`Except PyError`, where `PyError` distinguishes the two exception
kinds the module can raise (`IndexError` from out-of-range indexing,
`ValueError` from enum lookup failure or explicit `raise ValueError`).
-/

/-- Exceptions the Python module can raise. -/
inductive PyError
  | indexError
  | valueError
  deriving DecidableEq

/-- Byte order selector for `int.from_bytes`. -/
inductive ByteOrder
  | big
  | little
  deriving DecidableEq

/-- Python `f'{i:#0{size * 2 + 2}x}'`: lowercase hex, `0x` prefix, zero
padded so the digit field has `size * 2` digits (no truncation when the
value needs more digits). -/
def _hex_fill (i : Nat) (size : Nat) : String :=
  let ds := Nat.toDigits 16 i
  "0x" ++ String.mk (List.replicate (size * 2 - ds.length) '0') ++ String.mk ds

/-- Python string joining: `', ' + ', '.join(p) if p else ''`. -/
def _join_params (p : List String) : String :=
  if p.isEmpty then "" else ", " ++ String.intercalate ", " p

/-- Per-byte hex codec: `[_hex_fill(i) for i in b]` with the default size 1. -/
def _get_params_hex (b : List Nat) : List String :=
  b.map (fun i => _hex_fill i 1)

/-- Python `int.from_bytes(t, byteorder)` on a byte group. -/
def intFromBytes (byteoder : ByteOrder) (t : List Nat) : Nat :=
  match byteoder with
  | .big => t.foldl (fun a x => a * 256 + x) 0
  | .little => t.reverse.foldl (fun a x => a * 256 + x) 0

/-- The grouping performed by `zip(*[iter(b)] * size)`: consecutive
`size`-byte groups, a trailing group shorter than `size` is dropped.
Equivalently the slices `b[i*size:(i+1)*size]` for `i < len(b) // size`
(and no groups at all when `size = 0`, as `zip()` yields nothing). -/
def chunksExact (size : Nat) (b : List Nat) : List (List Nat) :=
  (List.range (b.length / size)).map (fun i => ((b.drop (i * size)).take size))

/-- `_get_params_int(size, byteoder)` applied to `b`: decode each
consecutive `size`-byte group as an unsigned integer in the given byte
order and format it with `_hex_fill(_, size)`. -/
def _get_params_int (size : Nat) (byteoder : ByteOrder) (b : List Nat) : List String :=
  (chunksExact size b).map (fun t => _hex_fill (intFromBytes byteoder t) size)

/-- Python `str.lower()` (ASCII names only in this module). -/
def pyLower (s : String) : String :=
  String.mk (s.data.map Char.toLower)

/-- Python `str.replace('_', ' ')` (single-character pattern, so it is
plain character-wise substitution). -/
def pyReplaceUnderscore (s : String) : String :=
  String.mk (s.data.map (fun c => if c = '_' then ' ' else c))

/-- The `TearMode` enum. -/
inductive TearMode
  | VBLANK
  | VHBLANK
  deriving DecidableEq

/-- Enum member name. -/
def TearMode.name : TearMode → String
  | .VBLANK => "VBLANK"
  | .VHBLANK => "VHBLANK"

/-- `TearMode.identifier`: `'MIPI_DSI_DCS_TEAR_MODE_' + self.name`. -/
def TearMode.identifier (m : TearMode) : String :=
  "MIPI_DSI_DCS_TEAR_MODE_" ++ m.name

/-- The enum value lookup `TearMode(v)`: `VBLANK = 0`, `VHBLANK = 1`,
any other value raises `ValueError` (modelled as `none`). -/
def TearMode.ofValue (v : Nat) : Option TearMode :=
  if v = 0 then some .VBLANK else if v = 1 then some .VHBLANK else none

/-- `TearMode.get_params`: `[TearMode(b[0]).identifier]`.  Indexing an
empty sequence raises `IndexError`; an unknown enum value raises
`ValueError`. -/
def TearMode.get_params (b : List Nat) : Except PyError (List String) :=
  match b with
  | [] => .error .indexError
  | v :: _ =>
    match TearMode.ofValue v with
    | none => .error .valueError
    | some m => .ok [m.identifier]

/-- The parameter codec attached to a `DCSCommand` entry: the default
per-byte hex codec, a fixed-width integer codec `_get_params_int(size,
byteoder)`, or `TearMode.get_params`. -/
inductive Codec
  | hex
  | int (size : Nat) (byteoder : ByteOrder)
  | tear
  deriving DecidableEq

/-- Run a codec on argument bytes.  The hex and integer codecs are
total; only the tear-mode codec can raise. -/
def Codec.run (c : Codec) (b : List Nat) : Except PyError (List String) :=
  match c with
  | .hex => .ok (_get_params_hex b)
  | .int size byteoder => .ok (_get_params_int size byteoder b)
  | .tear => TearMode.get_params b

/-- One member of the `DCSCommand` enum: member name, opcode value,
`nargs` (`none` when the entry leaves the argument count unspecified),
`method` (the bound native-call identifier, when any) and the
parameter codec (`get_params`, default `_get_params_hex`). -/
structure DCSCommand where
  name : String
  value : Nat
  nargs : Option Nat
  method : Option String
  codec : Codec
  deriving DecidableEq

def DCSCommand.NOP : DCSCommand := ⟨"NOP", 0x00, some 0, some "mipi_dsi_dcs_nop", .hex⟩

def DCSCommand.SOFT_RESET : DCSCommand := ⟨"SOFT_RESET", 0x01, some 0, some "mipi_dsi_dcs_soft_reset", .hex⟩

def DCSCommand.GET_DISPLAY_ID : DCSCommand := ⟨"GET_DISPLAY_ID", 0x04, none, none, .hex⟩

def DCSCommand.GET_RED_CHANNEL : DCSCommand := ⟨"GET_RED_CHANNEL", 0x06, none, none, .hex⟩

def DCSCommand.GET_GREEN_CHANNEL : DCSCommand := ⟨"GET_GREEN_CHANNEL", 0x07, none, none, .hex⟩

def DCSCommand.GET_BLUE_CHANNEL : DCSCommand := ⟨"GET_BLUE_CHANNEL", 0x08, none, none, .hex⟩

def DCSCommand.GET_DISPLAY_STATUS : DCSCommand := ⟨"GET_DISPLAY_STATUS", 0x09, none, none, .hex⟩

def DCSCommand.GET_POWER_MODE : DCSCommand := ⟨"GET_POWER_MODE", 0x0A, none, none, .hex⟩

def DCSCommand.GET_ADDRESS_MODE : DCSCommand := ⟨"GET_ADDRESS_MODE", 0x0B, none, none, .hex⟩

def DCSCommand.GET_PIXEL_FORMAT : DCSCommand := ⟨"GET_PIXEL_FORMAT", 0x0C, none, none, .hex⟩

def DCSCommand.GET_DISPLAY_MODE : DCSCommand := ⟨"GET_DISPLAY_MODE", 0x0D, none, none, .hex⟩

def DCSCommand.GET_SIGNAL_MODE : DCSCommand := ⟨"GET_SIGNAL_MODE", 0x0E, none, none, .hex⟩

def DCSCommand.GET_DIAGNOSTIC_RESULT : DCSCommand := ⟨"GET_DIAGNOSTIC_RESULT", 0x0F, none, none, .hex⟩

def DCSCommand.ENTER_SLEEP_MODE : DCSCommand := ⟨"ENTER_SLEEP_MODE", 0x10, some 0, some "mipi_dsi_dcs_enter_sleep_mode", .hex⟩

def DCSCommand.EXIT_SLEEP_MODE : DCSCommand := ⟨"EXIT_SLEEP_MODE", 0x11, some 0, some "mipi_dsi_dcs_exit_sleep_mode", .hex⟩

def DCSCommand.ENTER_PARTIAL_MODE : DCSCommand := ⟨"ENTER_PARTIAL_MODE", 0x12, some 0, none, .hex⟩

def DCSCommand.ENTER_NORMAL_MODE : DCSCommand := ⟨"ENTER_NORMAL_MODE", 0x13, some 0, none, .hex⟩

def DCSCommand.EXIT_INVERT_MODE : DCSCommand := ⟨"EXIT_INVERT_MODE", 0x20, some 0, none, .hex⟩

def DCSCommand.ENTER_INVERT_MODE : DCSCommand := ⟨"ENTER_INVERT_MODE", 0x21, some 0, none, .hex⟩

def DCSCommand.SET_GAMMA_CURVE : DCSCommand := ⟨"SET_GAMMA_CURVE", 0x26, some 1, none, .hex⟩

def DCSCommand.SET_DISPLAY_OFF : DCSCommand := ⟨"SET_DISPLAY_OFF", 0x28, some 0, some "mipi_dsi_dcs_set_display_off", .hex⟩

def DCSCommand.SET_DISPLAY_ON : DCSCommand := ⟨"SET_DISPLAY_ON", 0x29, some 0, some "mipi_dsi_dcs_set_display_on", .hex⟩

def DCSCommand.SET_COLUMN_ADDRESS : DCSCommand := ⟨"SET_COLUMN_ADDRESS", 0x2A, some 4, some "mipi_dsi_dcs_set_column_address", .int 2 .big⟩

def DCSCommand.SET_PAGE_ADDRESS : DCSCommand := ⟨"SET_PAGE_ADDRESS", 0x2B, some 4, some "mipi_dsi_dcs_set_page_address", .int 2 .big⟩

def DCSCommand.WRITE_MEMORY_START : DCSCommand := ⟨"WRITE_MEMORY_START", 0x2C, none, none, .hex⟩

def DCSCommand.WRITE_LUT : DCSCommand := ⟨"WRITE_LUT", 0x2D, none, none, .hex⟩

def DCSCommand.READ_MEMORY_START : DCSCommand := ⟨"READ_MEMORY_START", 0x2E, none, none, .hex⟩

def DCSCommand.SET_PARTIAL_AREA : DCSCommand := ⟨"SET_PARTIAL_AREA", 0x30, none, none, .hex⟩

def DCSCommand.SET_SCROLL_AREA : DCSCommand := ⟨"SET_SCROLL_AREA", 0x33, some 6, none, .hex⟩

def DCSCommand.SET_TEAR_OFF : DCSCommand := ⟨"SET_TEAR_OFF", 0x34, some 0, some "mipi_dsi_dcs_set_tear_off", .tear⟩

def DCSCommand.SET_TEAR_ON : DCSCommand := ⟨"SET_TEAR_ON", 0x35, some 1, some "mipi_dsi_dcs_set_tear_on", .tear⟩

def DCSCommand.SET_ADDRESS_MODE : DCSCommand := ⟨"SET_ADDRESS_MODE", 0x36, some 1, none, .hex⟩

def DCSCommand.SET_SCROLL_START : DCSCommand := ⟨"SET_SCROLL_START", 0x37, some 2, none, .hex⟩

def DCSCommand.EXIT_IDLE_MODE : DCSCommand := ⟨"EXIT_IDLE_MODE", 0x38, some 0, none, .hex⟩

def DCSCommand.ENTER_IDLE_MODE : DCSCommand := ⟨"ENTER_IDLE_MODE", 0x39, some 0, none, .hex⟩

def DCSCommand.SET_PIXEL_FORMAT : DCSCommand := ⟨"SET_PIXEL_FORMAT", 0x3A, some 1, some "mipi_dsi_dcs_set_pixel_format", .hex⟩

def DCSCommand.WRITE_MEMORY_CONTINUE : DCSCommand := ⟨"WRITE_MEMORY_CONTINUE", 0x3C, none, none, .hex⟩

def DCSCommand.READ_MEMORY_CONTINUE : DCSCommand := ⟨"READ_MEMORY_CONTINUE", 0x3E, none, none, .hex⟩

def DCSCommand.SET_TEAR_SCANLINE : DCSCommand := ⟨"SET_TEAR_SCANLINE", 0x44, some 2, some "mipi_dsi_dcs_set_tear_scanline", .int 2 .big⟩

def DCSCommand.GET_SCANLINE : DCSCommand := ⟨"GET_SCANLINE", 0x45, none, none, .hex⟩

def DCSCommand.SET_DISPLAY_BRIGHTNESS : DCSCommand := ⟨"SET_DISPLAY_BRIGHTNESS", 0x51, some 2, some "mipi_dsi_dcs_set_display_brightness", .int 2 .little⟩

def DCSCommand.GET_DISPLAY_BRIGHTNESS : DCSCommand := ⟨"GET_DISPLAY_BRIGHTNESS", 0x52, none, none, .hex⟩

def DCSCommand.WRITE_CONTROL_DISPLAY : DCSCommand := ⟨"WRITE_CONTROL_DISPLAY", 0x53, none, none, .hex⟩

def DCSCommand.GET_CONTROL_DISPLAY : DCSCommand := ⟨"GET_CONTROL_DISPLAY", 0x54, none, none, .hex⟩

def DCSCommand.WRITE_POWER_SAVE : DCSCommand := ⟨"WRITE_POWER_SAVE", 0x55, none, none, .hex⟩

def DCSCommand.GET_POWER_SAVE : DCSCommand := ⟨"GET_POWER_SAVE", 0x56, none, none, .hex⟩

def DCSCommand.SET_CABC_MIN_BRIGHTNESS : DCSCommand := ⟨"SET_CABC_MIN_BRIGHTNESS", 0x5E, none, none, .hex⟩

def DCSCommand.GET_CABC_MIN_BRIGHTNESS : DCSCommand := ⟨"GET_CABC_MIN_BRIGHTNESS", 0x5F, none, none, .hex⟩

def DCSCommand.READ_DDB_START : DCSCommand := ⟨"READ_DDB_START", 0xA1, none, none, .hex⟩

def DCSCommand.READ_DDB_CONTINUE : DCSCommand := ⟨"READ_DDB_CONTINUE", 0xA8, none, none, .hex⟩

/-- All members of the `DCSCommand` enum, in declaration order. -/
def dcsCommands : List DCSCommand :=
  [DCSCommand.NOP, DCSCommand.SOFT_RESET, DCSCommand.GET_DISPLAY_ID,
   DCSCommand.GET_RED_CHANNEL, DCSCommand.GET_GREEN_CHANNEL,
   DCSCommand.GET_BLUE_CHANNEL, DCSCommand.GET_DISPLAY_STATUS,
   DCSCommand.GET_POWER_MODE, DCSCommand.GET_ADDRESS_MODE,
   DCSCommand.GET_PIXEL_FORMAT, DCSCommand.GET_DISPLAY_MODE,
   DCSCommand.GET_SIGNAL_MODE, DCSCommand.GET_DIAGNOSTIC_RESULT,
   DCSCommand.ENTER_SLEEP_MODE, DCSCommand.EXIT_SLEEP_MODE,
   DCSCommand.ENTER_PARTIAL_MODE, DCSCommand.ENTER_NORMAL_MODE,
   DCSCommand.EXIT_INVERT_MODE, DCSCommand.ENTER_INVERT_MODE,
   DCSCommand.SET_GAMMA_CURVE, DCSCommand.SET_DISPLAY_OFF,
   DCSCommand.SET_DISPLAY_ON, DCSCommand.SET_COLUMN_ADDRESS,
   DCSCommand.SET_PAGE_ADDRESS, DCSCommand.WRITE_MEMORY_START,
   DCSCommand.WRITE_LUT, DCSCommand.READ_MEMORY_START,
   DCSCommand.SET_PARTIAL_AREA, DCSCommand.SET_SCROLL_AREA,
   DCSCommand.SET_TEAR_OFF, DCSCommand.SET_TEAR_ON,
   DCSCommand.SET_ADDRESS_MODE, DCSCommand.SET_SCROLL_START,
   DCSCommand.EXIT_IDLE_MODE, DCSCommand.ENTER_IDLE_MODE,
   DCSCommand.SET_PIXEL_FORMAT, DCSCommand.WRITE_MEMORY_CONTINUE,
   DCSCommand.READ_MEMORY_CONTINUE, DCSCommand.SET_TEAR_SCANLINE,
   DCSCommand.GET_SCANLINE, DCSCommand.SET_DISPLAY_BRIGHTNESS,
   DCSCommand.GET_DISPLAY_BRIGHTNESS, DCSCommand.WRITE_CONTROL_DISPLAY,
   DCSCommand.GET_CONTROL_DISPLAY, DCSCommand.WRITE_POWER_SAVE,
   DCSCommand.GET_POWER_SAVE, DCSCommand.SET_CABC_MIN_BRIGHTNESS,
   DCSCommand.GET_CABC_MIN_BRIGHTNESS, DCSCommand.READ_DDB_START,
   DCSCommand.READ_DDB_CONTINUE]

/-- The enum value lookup `DCSCommand(v)`: first member whose opcode
value is `v`, `none` when the lookup raises `ValueError`.  The `@unique`
decorator guarantees values are distinct, so "first" is "the". -/
def dcsLookup (v : Nat) : Option DCSCommand :=
  dcsCommands.find? (fun e => e.value == v)

/-- Python `==` between an `int` and an `Optional[int]`: comparison
with `None` is always `False`. -/
def intEqOpt (n : Nat) : Option Nat → Bool
  | some m => n == m
  | none => false

/-- `DCSCommand.find(payload)`: look up `payload[0]` (raising
`IndexError` on an empty payload), catch `ValueError` as `None`, and
otherwise return the command iff `len(payload) - 1 == dcs.nargs`. -/
def DCSCommand.find : List Nat → Except PyError (Option DCSCommand)
  | [] => .error .indexError
  | b :: rest =>
    match dcsLookup b with
    | none => .ok none
    | some dcs => .ok (if intEqOpt rest.length dcs.nargs then some dcs else none)

/-- `DCSCommand.identifier`: `'MIPI_DCS_' + self.name`. -/
def DCSCommand.identifier (e : DCSCommand) : String :=
  "MIPI_DCS_" ++ e.name

/-- `DCSCommand.description`: `self.name.lower().replace('_', ' ')`. -/
def DCSCommand.description (e : DCSCommand) : String :=
  pyReplaceUnderscore (pyLower e.name)

/-- `DCSCommand.get_params` of an entry, applied to argument bytes. -/
def DCSCommand.get_params (e : DCSCommand) (b : List Nat) : Except PyError (List String) :=
  e.codec.run b

/-- `_check_ret(expr, description)`: the error-checked call template
(tabs and newlines exactly as in the triple-quoted Python string). -/
def _check_ret (expr : String) (description : String) : String :=
  "\tret = " ++ expr ++ ";\n\tif (ret < 0) \x7b\n\t\tdev_err(dev, \"Failed to "
    ++ description ++ ": %d\\n\", ret);\n\t\treturn ret;\n\t\x7d"

/-- Which generate function a `Transaction` entry carries. -/
inductive GenKind
  | fallback
  | generic
  | dcs
  | peripheral
  deriving DecidableEq

/-- One member of the `Transaction` enum: member name, opcode value,
`max_args` (default `-1`) and the attached generate function
(default `_generate_fallback`). -/
structure Transaction where
  name : String
  value : Nat
  max_args : Int
  gen : GenKind
  deriving DecidableEq

def Transaction.V_SYNC_START : Transaction := ⟨"V_SYNC_START", 0x01, -1, .fallback⟩

def Transaction.V_SYNC_END : Transaction := ⟨"V_SYNC_END", 0x11, -1, .fallback⟩

def Transaction.H_SYNC_START : Transaction := ⟨"H_SYNC_START", 0x21, -1, .fallback⟩

def Transaction.H_SYNC_END : Transaction := ⟨"H_SYNC_END", 0x31, -1, .fallback⟩

def Transaction.COLOR_MODE_OFF : Transaction := ⟨"COLOR_MODE_OFF", 0x02, -1, .fallback⟩

def Transaction.COLOR_MODE_ON : Transaction := ⟨"COLOR_MODE_ON", 0x12, -1, .fallback⟩

def Transaction.SHUTDOWN_PERIPHERAL : Transaction := ⟨"SHUTDOWN_PERIPHERAL", 0x22, 0, .peripheral⟩

def Transaction.TURN_ON_PERIPHERAL : Transaction := ⟨"TURN_ON_PERIPHERAL", 0x32, 0, .peripheral⟩

def Transaction.GENERIC_SHORT_WRITE_0_PARAM : Transaction := ⟨"GENERIC_SHORT_WRITE_0_PARAM", 0x03, 0, .generic⟩

def Transaction.GENERIC_SHORT_WRITE_1_PARAM : Transaction := ⟨"GENERIC_SHORT_WRITE_1_PARAM", 0x13, 1, .generic⟩

def Transaction.GENERIC_SHORT_WRITE_2_PARAM : Transaction := ⟨"GENERIC_SHORT_WRITE_2_PARAM", 0x23, 2, .generic⟩

def Transaction.GENERIC_READ_REQUEST_0_PARAM : Transaction := ⟨"GENERIC_READ_REQUEST_0_PARAM", 0x04, -1, .fallback⟩

def Transaction.GENERIC_READ_REQUEST_1_PARAM : Transaction := ⟨"GENERIC_READ_REQUEST_1_PARAM", 0x14, -1, .fallback⟩

def Transaction.GENERIC_READ_REQUEST_2_PARAM : Transaction := ⟨"GENERIC_READ_REQUEST_2_PARAM", 0x24, -1, .fallback⟩

def Transaction.DCS_SHORT_WRITE : Transaction := ⟨"DCS_SHORT_WRITE", 0x05, 0, .dcs⟩

def Transaction.DCS_SHORT_WRITE_PARAM : Transaction := ⟨"DCS_SHORT_WRITE_PARAM", 0x15, 1, .dcs⟩

def Transaction.DCS_READ : Transaction := ⟨"DCS_READ", 0x06, -1, .fallback⟩

def Transaction.DCS_COMPRESSION_MODE : Transaction := ⟨"DCS_COMPRESSION_MODE", 0x07, -1, .fallback⟩

def Transaction.PPS_LONG_WRITE : Transaction := ⟨"PPS_LONG_WRITE", 0x0A, -1, .fallback⟩

def Transaction.SET_MAXIMUM_RETURN_PACKET_SIZE : Transaction := ⟨"SET_MAXIMUM_RETURN_PACKET_SIZE", 0x37, -1, .fallback⟩

def Transaction.END_OF_TRANSMISSION : Transaction := ⟨"END_OF_TRANSMISSION", 0x08, -1, .fallback⟩

def Transaction.NULL_PACKET : Transaction := ⟨"NULL_PACKET", 0x09, -1, .fallback⟩

def Transaction.BLANKING_PACKET : Transaction := ⟨"BLANKING_PACKET", 0x19, -1, .fallback⟩

def Transaction.GENERIC_LONG_WRITE : Transaction := ⟨"GENERIC_LONG_WRITE", 0x29, -1, .generic⟩

def Transaction.DCS_LONG_WRITE : Transaction := ⟨"DCS_LONG_WRITE", 0x39, -1, .dcs⟩

def Transaction.LOOSELY_PACKED_PIXEL_STREAM_YCBCR20 : Transaction := ⟨"LOOSELY_PACKED_PIXEL_STREAM_YCBCR20", 0x0c, -1, .fallback⟩

def Transaction.PACKED_PIXEL_STREAM_YCBCR24 : Transaction := ⟨"PACKED_PIXEL_STREAM_YCBCR24", 0x1c, -1, .fallback⟩

def Transaction.PACKED_PIXEL_STREAM_YCBCR16 : Transaction := ⟨"PACKED_PIXEL_STREAM_YCBCR16", 0x2c, -1, .fallback⟩

def Transaction.PACKED_PIXEL_STREAM_30 : Transaction := ⟨"PACKED_PIXEL_STREAM_30", 0x0d, -1, .fallback⟩

def Transaction.PACKED_PIXEL_STREAM_36 : Transaction := ⟨"PACKED_PIXEL_STREAM_36", 0x1d, -1, .fallback⟩

def Transaction.PACKED_PIXEL_STREAM_YCBCR12 : Transaction := ⟨"PACKED_PIXEL_STREAM_YCBCR12", 0x3d, -1, .fallback⟩

def Transaction.PACKED_PIXEL_STREAM_16 : Transaction := ⟨"PACKED_PIXEL_STREAM_16", 0x0e, -1, .fallback⟩

def Transaction.PACKED_PIXEL_STREAM_18 : Transaction := ⟨"PACKED_PIXEL_STREAM_18", 0x1e, -1, .fallback⟩

def Transaction.PIXEL_STREAM_3BYTE_18 : Transaction := ⟨"PIXEL_STREAM_3BYTE_18", 0x2e, -1, .fallback⟩

def Transaction.PACKED_PIXEL_STREAM_24 : Transaction := ⟨"PACKED_PIXEL_STREAM_24", 0x3e, -1, .fallback⟩

/-- All members of the `Transaction` enum, in declaration order. -/
def transactions : List Transaction :=
  [Transaction.V_SYNC_START, Transaction.V_SYNC_END,
   Transaction.H_SYNC_START, Transaction.H_SYNC_END,
   Transaction.COLOR_MODE_OFF, Transaction.COLOR_MODE_ON,
   Transaction.SHUTDOWN_PERIPHERAL, Transaction.TURN_ON_PERIPHERAL,
   Transaction.GENERIC_SHORT_WRITE_0_PARAM,
   Transaction.GENERIC_SHORT_WRITE_1_PARAM,
   Transaction.GENERIC_SHORT_WRITE_2_PARAM,
   Transaction.GENERIC_READ_REQUEST_0_PARAM,
   Transaction.GENERIC_READ_REQUEST_1_PARAM,
   Transaction.GENERIC_READ_REQUEST_2_PARAM,
   Transaction.DCS_SHORT_WRITE, Transaction.DCS_SHORT_WRITE_PARAM,
   Transaction.DCS_READ, Transaction.DCS_COMPRESSION_MODE,
   Transaction.PPS_LONG_WRITE, Transaction.SET_MAXIMUM_RETURN_PACKET_SIZE,
   Transaction.END_OF_TRANSMISSION, Transaction.NULL_PACKET,
   Transaction.BLANKING_PACKET, Transaction.GENERIC_LONG_WRITE,
   Transaction.DCS_LONG_WRITE,
   Transaction.LOOSELY_PACKED_PIXEL_STREAM_YCBCR20,
   Transaction.PACKED_PIXEL_STREAM_YCBCR24,
   Transaction.PACKED_PIXEL_STREAM_YCBCR16,
   Transaction.PACKED_PIXEL_STREAM_30, Transaction.PACKED_PIXEL_STREAM_36,
   Transaction.PACKED_PIXEL_STREAM_YCBCR12,
   Transaction.PACKED_PIXEL_STREAM_16, Transaction.PACKED_PIXEL_STREAM_18,
   Transaction.PIXEL_STREAM_3BYTE_18, Transaction.PACKED_PIXEL_STREAM_24]

/-- `Transaction.identifier`: `'MIPI_DSI_' + self.name`. -/
def Transaction.identifier (t : Transaction) : String :=
  "MIPI_DSI_" ++ t.name

/-- `Transaction.description`: `self.name.lower().replace('_', ' ')`. -/
def Transaction.description (t : Transaction) : String :=
  pyReplaceUnderscore (pyLower t.name)

/-- The `MACROS` mapping of write macros to the functions they wrap. -/
def MACROS : List (String × String) :=
  [("dsi_generic_write_seq", "mipi_dsi_generic_write"),
   ("dsi_dcs_write_seq", "mipi_dsi_dcs_write_buffer")]

/-- `_generate_generic_write(t, payload)`. -/
def _generate_generic_write (_t : Transaction) (payload : List Nat) : String :=
  "\tdsi_generic_write_seq(dsi" ++ _join_params (_get_params_hex payload) ++ ");"

/-- Python `args[0] = s` on a list of hex tokens. -/
def setFirst (args : List String) (s : String) : List String :=
  match args with
  | [] => []
  | _ :: rest => s :: rest

/-- `_generate_dcs_write(t, payload)`: resolve the embedded DCS command;
when it resolves with a bound method, emit the error-checked call with
the entry's codec applied to `payload[1:]`; when it resolves without a
method, emit the raw write with `args[0] = dcs.name`; otherwise emit the
raw write unmodified.  Exceptions from `find` or from the codec
propagate. -/
def _generate_dcs_write (_t : Transaction) (payload : List Nat) : Except PyError String :=
  match DCSCommand.find payload with
  | .error e => .error e
  | .ok none =>
    .ok ("\tdsi_dcs_write_seq(dsi" ++ _join_params (_get_params_hex payload) ++ ");")
  | .ok (some dcs) =>
    match dcs.method with
    | some m =>
      match dcs.get_params payload.tail with
      | .error e => .error e
      | .ok ps => .ok (_check_ret (m ++ "(dsi" ++ _join_params ps ++ ")") dcs.description)
    | none =>
      .ok ("\tdsi_dcs_write_seq(dsi" ++ _join_params (setFirst (_get_params_hex payload) dcs.name) ++ ");")

/-- `_generate_peripheral(t, payload)`: the payload body is ignored;
only the two peripheral lifecycle transactions are legal here, anything
else raises `ValueError(t)`. -/
def _generate_peripheral (t : Transaction) (_payload : List Nat) : Except PyError String :=
  if t = Transaction.TURN_ON_PERIPHERAL then
    .ok (_check_ret "mipi_dsi_turn_on_peripheral(dsi)" t.description)
  else if t = Transaction.SHUTDOWN_PERIPHERAL then
    .ok (_check_ret "mipi_dsi_shutdown_peripheral(dsi)" t.description)
  else
    .error .valueError

/-- `Transaction.generate(payload)`: dispatch on the generate function
stored in the entry; `_generate_fallback` raises `ValueError`. -/
def Transaction.generate (t : Transaction) (payload : List Nat) : Except PyError String :=
  match t.gen with
  | .fallback => .error .valueError
  | .generic => .ok (_generate_generic_write t payload)
  | .dcs => _generate_dcs_write t payload
  | .peripheral => _generate_peripheral t payload

/-!  Helper lemmas shared by the claim theorems. -/

/-- Every table entry is found by looking up its own opcode value
(the `@unique` decorator makes opcode values distinct). -/
theorem dcsLookup_self : ∀ e ∈ dcsCommands, dcsLookup e.value = some e := by decide

/-- Peeling one exact-width group off the front of the grouping. -/
theorem chunksExact_cons (w : Nat) (g rest : List Nat) (hg : g.length = w) (hw : 0 < w) :
    chunksExact w (g ++ rest) = g :: chunksExact w rest := by
  unfold chunksExact
  have h1 : (g ++ rest).length = rest.length + w := by
    rw [List.length_append, hg, Nat.add_comm]
  rw [h1, Nat.add_div_right _ hw, List.range_succ_eq_map, List.map_cons, List.map_map]
  congr 1
  · simp [List.take_left' hg]
  · refine List.map_congr_left ?_
    intro i _
    simp only [Function.comp_apply]
    have h2 : Nat.succ i * w = g.length + i * w := by
      rw [hg, Nat.succ_mul, Nat.add_comm]
    rw [h2, List.drop_append]

/-- Grouping the concatenation of exact-width groups recovers them. -/
theorem chunksExact_join (w : Nat) (groups : List (List Nat)) (hw : 0 < w)
    (hg : ∀ g ∈ groups, g.length = w) :
    chunksExact w groups.flatten = groups := by
  induction groups with
  | nil => simp [chunksExact]
  | cons g gs ih =>
    have h1 : (g :: gs).flatten = g ++ gs.flatten := rfl
    rw [h1, chunksExact_cons w g gs.flatten (hg g (by simp)) hw,
      ih (fun x hx => hg x (by simp [hx]))]

/-- The grouping only ever looks at the first `len b / w * w` bytes. -/
theorem chunksExact_take (w : Nat) (b : List Nat) :
    chunksExact w (b.take (b.length / w * w)) = chunksExact w b := by
  rcases Nat.eq_zero_or_pos w with hw | hw
  · subst hw; simp [chunksExact]
  · have hle : b.length / w * w ≤ b.length := Nat.div_mul_le_self _ _
    have hlen : (b.take (b.length / w * w)).length = b.length / w * w := by
      rw [List.length_take]
      exact Nat.min_eq_left hle
    unfold chunksExact
    rw [hlen, Nat.mul_div_cancel _ hw]
    refine List.map_congr_left ?_
    intro i hi
    rw [List.mem_range] at hi
    have hiw : i * w + w ≤ b.length / w * w := by
      have h5 : (i + 1) * w ≤ b.length / w * w := Nat.mul_le_mul_right w hi
      rw [Nat.succ_mul] at h5
      exact h5
    rw [List.drop_take, List.take_take]
    have hmin : min w (b.length / w * w - i * w) = w := by
      revert hiw
      generalize i * w = A
      generalize b.length / w * w = B
      intro hiw
      omega
    rw [hmin]

/-!  Claim theorems. -/

/-- C1 (counterexample): opcode `0x04` (`GET_DISPLAY_ID`) is a table
entry with unspecified arity (`nargs = None`), yet resolution returns
the not-found outcome — with no trailing bytes and with one trailing
byte alike — instead of accepting unconditionally: the Python
comparison `len(payload) - 1 == None` is always false. -/
theorem c1_cex :
    dcsLookup 0x04 = some DCSCommand.GET_DISPLAY_ID ∧
    DCSCommand.GET_DISPLAY_ID.nargs = none ∧
    DCSCommand.find [0x04] = Except.ok none ∧
    DCSCommand.find [0x04, 0x5A] = Except.ok none :=
  ⟨rfl, rfl, rfl, rfl⟩

/-- C1 (amended): for every payload whose opcode byte matches a table
entry with unspecified arity, resolution returns the not-found outcome
unconditionally, regardless of how many trailing argument bytes follow
the opcode. -/
theorem c1_thm (b : Nat) (rest : List Nat) (e : DCSCommand)
    (h1 : dcsLookup b = some e) (h2 : e.nargs = none) :
    DCSCommand.find (b :: rest) = Except.ok none := by
  simp [DCSCommand.find, h1, h2, intEqOpt]

/-- C1 witness: `GET_DISPLAY_ID` with one trailing byte. -/
theorem c1_witness : DCSCommand.find [0x04, 0x01] = Except.ok none :=
  c1_thm 0x04 [0x01] DCSCommand.GET_DISPLAY_ID rfl rfl

/-- C2: for every table entry with fixed arity `n`, a payload of the
entry's opcode followed by exactly `n` argument bytes (total `n + 1`
bytes) resolves to that entry, while a payload of `n` or `n + 2` total
bytes with the same opcode resolves to the not-found outcome. -/
theorem c2_thm : ∀ e ∈ dcsCommands, ∀ n : Nat, e.nargs = some n → ∀ args : List Nat,
    (args.length = n → DCSCommand.find (e.value :: args) = Except.ok (some e)) ∧
    ((args.length + 1 = n ∨ args.length = n + 1) →
      DCSCommand.find (e.value :: args) = Except.ok none) := by
  intro e he n hn args
  have hl : dcsLookup e.value = some e := dcsLookup_self e he
  constructor
  · intro h
    simp [DCSCommand.find, hl, hn, intEqOpt, h]
  · intro h
    have hne : args.length ≠ n := by omega
    simp [DCSCommand.find, hl, hn, intEqOpt, hne]

/-- C2 witness: `SET_GAMMA_CURVE` (opcode `0x26`, arity 1) with one
argument byte resolves, with zero argument bytes it does not. -/
theorem c2_witness :
    DCSCommand.find (DCSCommand.SET_GAMMA_CURVE.value :: [0x77]) =
      Except.ok (some DCSCommand.SET_GAMMA_CURVE) ∧
    DCSCommand.find (DCSCommand.SET_GAMMA_CURVE.value :: []) = Except.ok none :=
  ⟨(c2_thm DCSCommand.SET_GAMMA_CURVE (by decide) 1 rfl [0x77]).1 rfl,
   (c2_thm DCSCommand.SET_GAMMA_CURVE (by decide) 1 rfl []).2 (Or.inl rfl)⟩

/-- C3: whenever the embedded display command of a command-set write
resolves to an entry with a bound native-call identifier, the renderer
produces the error-checked call built from that identifier and the
entry's codec applied to the bytes after the inner opcode (never a
raw-bytes write); in particular the write transaction `0x15` with the
single argument byte `0x29` emits the error-checked call to
`mipi_dsi_dcs_set_display_on` with zero parameters. -/
theorem c3_thm :
    (∀ (t : Transaction) (payload : List Nat) (dcs : DCSCommand) (m : String),
      DCSCommand.find payload = Except.ok (some dcs) → dcs.method = some m →
      _generate_dcs_write t payload =
        (dcs.get_params payload.tail).map
          (fun ps => _check_ret (m ++ "(dsi" ++ _join_params ps ++ ")") dcs.description)) ∧
    Transaction.generate Transaction.DCS_SHORT_WRITE_PARAM [0x29] =
      Except.ok (_check_ret "mipi_dsi_dcs_set_display_on(dsi)" "set display on") := by
  constructor
  · intro t payload dcs m h1 h2
    rcases h3 : dcs.get_params payload.tail with e | ps
    · simp [_generate_dcs_write, h1, h2, h3, Except.map]
    · simp [_generate_dcs_write, h1, h2, h3, Except.map]
  · rfl

/-- C3 witness: the zero-arity `SET_DISPLAY_OFF` entry. -/
theorem c3_witness :
    _generate_dcs_write Transaction.DCS_SHORT_WRITE [0x28] =
      Except.ok (_check_ret "mipi_dsi_dcs_set_display_off(dsi)" "set display off") := by
  rw [c3_thm.1 Transaction.DCS_SHORT_WRITE [0x28] DCSCommand.SET_DISPLAY_OFF
      "mipi_dsi_dcs_set_display_off" rfl rfl]
  rfl

/-- C4: an opcode absent from the table and an opcode present with a
mismatched trailing-byte count produce one and the same not-found
value `Except.ok none`, indistinguishable to the caller. -/
theorem c4_thm : ∀ (b : Nat) (args : List Nat),
    (dcsLookup b = none → DCSCommand.find (b :: args) = Except.ok none) ∧
    (∀ e : DCSCommand, dcsLookup b = some e → intEqOpt args.length e.nargs = false →
      DCSCommand.find (b :: args) = Except.ok none) := by
  intro b args
  constructor
  · intro h
    simp [DCSCommand.find, h]
  · intro e h1 h2
    simp [DCSCommand.find, h1, h2]

/-- C4 witness: unknown opcode `0xFF`, and `SET_DISPLAY_ON` (arity 0)
with two trailing bytes, both yield the same not-found value. -/
theorem c4_witness :
    DCSCommand.find [0xFF] = Except.ok none ∧
    DCSCommand.find [0x29, 0x01, 0x02] = Except.ok none :=
  ⟨(c4_thm 0xFF []).1 rfl,
   (c4_thm 0x29 [0x01, 0x02]).2 DCSCommand.SET_DISPLAY_ON rfl rfl⟩

/-- C5: the single-byte payload `0x34` (tear off) resolves (arity 0,
bound call present), but the tear-mode codec applied to the empty
remaining-byte sequence indexes its first byte, so rendering fails
with the out-of-range indexing error instead of producing output. -/
theorem c5_thm :
    DCSCommand.find [0x34] = Except.ok (some DCSCommand.SET_TEAR_OFF) ∧
    DCSCommand.SET_TEAR_OFF.method = some "mipi_dsi_dcs_set_tear_off" ∧
    DCSCommand.SET_TEAR_OFF.get_params (([0x34] : List Nat).tail) =
      Except.error PyError.indexError ∧
    Transaction.generate Transaction.DCS_SHORT_WRITE [0x34] =
      Except.error PyError.indexError :=
  ⟨rfl, rfl, rfl, rfl⟩

/-- C6: evaluation at the failing input `[0x36, 0x00]` — the inner
command `SET_ADDRESS_MODE` resolves with no bound call, and the raw
write substitutes the bare programmatic name `SET_ADDRESS_MODE` for
the first hex token, not the symbolic identifier
`MIPI_DCS_SET_ADDRESS_MODE` of the command-set naming family. -/
theorem c6_thm :
    _generate_dcs_write Transaction.DCS_LONG_WRITE [0x36, 0x00] =
      Except.ok "\tdsi_dcs_write_seq(dsi, SET_ADDRESS_MODE, 0x00);" ∧
    dcsLookup 0x36 = some DCSCommand.SET_ADDRESS_MODE ∧
    DCSCommand.SET_ADDRESS_MODE.identifier = "MIPI_DCS_SET_ADDRESS_MODE" ∧
    "\tdsi_dcs_write_seq(dsi, SET_ADDRESS_MODE, 0x00);" ≠
      "\tdsi_dcs_write_seq(dsi, MIPI_DCS_SET_ADDRESS_MODE, 0x00);" :=
  ⟨rfl, rfl, rfl, by decide⟩

/-- C7: on an input that is the concatenation of `w`-byte groups, the
fixed-width integer codec yields one token per group: the group's
unsigned value in the configured byte order, hex formatted padded to
`w * 2` digits; concretely the big-endian width-2 codec on
`[0x01, 0x2C]` and the little-endian width-2 codec on `[0x2C, 0x01]`
both yield the single token `0x012c`. -/
theorem c7_thm :
    (∀ (byteoder : ByteOrder) (w : Nat) (groups : List (List Nat)), 0 < w →
      (∀ g ∈ groups, g.length = w) →
      _get_params_int w byteoder groups.flatten =
        groups.map (fun g => _hex_fill (intFromBytes byteoder g) w)) ∧
    _get_params_int 2 ByteOrder.big [0x01, 0x2C] = ["0x012c"] ∧
    _get_params_int 2 ByteOrder.little [0x2C, 0x01] = ["0x012c"] := by
  refine ⟨?_, rfl, rfl⟩
  intro bo w groups hw hg
  unfold _get_params_int
  rw [chunksExact_join w groups hw hg]

/-- C7 witness: two big-endian width-2 groups. -/
theorem c7_witness :
    _get_params_int 2 ByteOrder.big (List.flatten [[0x01, 0x2C], [0x00, 0x10]]) =
      List.map (fun g => _hex_fill (intFromBytes ByteOrder.big g) 2)
        [[0x01, 0x2C], [0x00, 0x10]] :=
  c7_thm.1 ByteOrder.big 2 [[0x01, 0x2C], [0x00, 0x10]] (by decide) (by decide)

/-- C8: the tear-mode enumeration codec maps byte 0 to the `VBLANK`
identifier and byte 1 to the `VHBLANK` identifier, and fails with the
unrecognized-enumeration-value error on 2 — and on every other byte
outside the closed set — instead of returning a token. -/
theorem c8_thm :
    TearMode.get_params [0] = Except.ok ["MIPI_DSI_DCS_TEAR_MODE_VBLANK"] ∧
    TearMode.get_params [1] = Except.ok ["MIPI_DSI_DCS_TEAR_MODE_VHBLANK"] ∧
    TearMode.get_params [2] = Except.error PyError.valueError ∧
    ∀ (v : Nat) (rest : List Nat), v ≠ 0 → v ≠ 1 →
      TearMode.get_params (v :: rest) = Except.error PyError.valueError := by
  refine ⟨rfl, rfl, rfl, ?_⟩
  intro v rest h0 h1
  simp [TearMode.get_params, TearMode.ofValue, h0, h1]

/-- C8 witness: value 5 is rejected. -/
theorem c8_witness : TearMode.get_params [5] = Except.error PyError.valueError :=
  c8_thm.2.2.2 5 [] (by decide) (by decide)

/-- C9: rendering the peripheral-shutdown transaction (`0x22`) with no
argument bytes yields the error-checked zero-argument call; rendering
it with any payload yields the same output (the renderer ignores the
payload body); any transaction other than the two peripheral-lifecycle
members routed to the peripheral renderer fails fast with
`ValueError`. -/
theorem c9_thm :
    Transaction.generate Transaction.SHUTDOWN_PERIPHERAL [] =
      Except.ok (_check_ret "mipi_dsi_shutdown_peripheral(dsi)" "shutdown peripheral") ∧
    (∀ payload : List Nat, Transaction.generate Transaction.SHUTDOWN_PERIPHERAL payload =
      Transaction.generate Transaction.SHUTDOWN_PERIPHERAL []) ∧
    (∀ (t : Transaction) (payload : List Nat),
      t ≠ Transaction.SHUTDOWN_PERIPHERAL → t ≠ Transaction.TURN_ON_PERIPHERAL →
      _generate_peripheral t payload = Except.error PyError.valueError) := by
  refine ⟨rfl, fun payload => rfl, ?_⟩
  intro t payload h1 h2
  simp [_generate_peripheral, h1, h2]

/-- C9 witness: shutdown with one argument byte still succeeds with the
same output, and a sync transaction routed to the peripheral renderer
fails fast. -/
theorem c9_witness :
    Transaction.generate Transaction.SHUTDOWN_PERIPHERAL [0x42] =
      Transaction.generate Transaction.SHUTDOWN_PERIPHERAL [] ∧
    _generate_peripheral Transaction.V_SYNC_START [] = Except.error PyError.valueError :=
  ⟨c9_thm.2.1 [0x42], c9_thm.2.2 Transaction.V_SYNC_START [] (by decide) (by decide)⟩

/-- C10: on an input whose length is not a multiple of the configured
width, the fixed-width integer codec does not fail: it returns exactly
`length / w` tokens and silently ignores the trailing `length % w`
bytes (the output only depends on the first `length / w * w` bytes). -/
theorem c10_thm : ∀ (w : Nat) (byteoder : ByteOrder) (b : List Nat), ¬ (w ∣ b.length) →
    (_get_params_int w byteoder b).length = b.length / w ∧
    _get_params_int w byteoder b = _get_params_int w byteoder (b.take (b.length / w * w)) := by
  intro w bo b _h
  constructor
  · simp [_get_params_int, chunksExact]
  · unfold _get_params_int
    rw [chunksExact_take]

/-- C10 witness: width 2 on a 3-byte input yields one token and ignores
the third byte. -/
theorem c10_witness :
    (_get_params_int 2 ByteOrder.big [0x01, 0x02, 0x03]).length =
      ([0x01, 0x02, 0x03] : List Nat).length / 2 ∧
    _get_params_int 2 ByteOrder.big [0x01, 0x02, 0x03] =
      _get_params_int 2 ByteOrder.big
        (([0x01, 0x02, 0x03] : List Nat).take (([0x01, 0x02, 0x03] : List Nat).length / 2 * 2)) :=
  c10_thm 2 ByteOrder.big [0x01, 0x02, 0x03] (by decide)

/-- C6 companion: when the embedded command fails to resolve, the
raw-bytes write is emitted unmodified with the literal hex bytes. -/
theorem rawWriteUnmodified (t : Transaction) (b : Nat) (rest : List Nat)
    (h : DCSCommand.find (b :: rest) = Except.ok none) :
    _generate_dcs_write t (b :: rest) =
      Except.ok ("\tdsi_dcs_write_seq(dsi" ++ _join_params (_get_params_hex (b :: rest)) ++ ");") := by
  simp [_generate_dcs_write, h]
